import Mathlib

/-!
Verification of the flood-detection pipeline (`src/app.py`).

The Python program is shallowly embedded: pure functions become Lean
functions, the stateful loop bodies become explicit state-transition
functions, Python floats become rationals, and the fallible HTTP call
becomes an inductive outcome type.  Every definition mirrors the source;
line references point into `src/app.py`.
-/

/-!  ## String containment (Python `needle in hay`, over chars) -/

/-- Does `needle` occur at the head of `hay`?  (Helper for substring search.) -/
def charsMatchAt : List Char → List Char → Bool
  | [], _ => true
  | _ :: _, [] => false
  | a :: as, b :: bs => a == b && charsMatchAt as bs

/-- Does `needle` occur contiguously anywhere in `hay`?  This is Python's
substring operator `needle in hay` on the character lists. -/
def charsHasSub (needle : List Char) : List Char → Bool
  | [] => charsMatchAt needle []
  | b :: bs => charsMatchAt needle (b :: bs) || charsHasSub needle bs

/-- Python's `needle in hay` for strings: contiguous substring containment. -/
def hasSubstr (needle hay : String) : Bool :=
  charsHasSub needle.toList hay.toList

/-!  ## Label-to-level derivation (app.py lines 141-160) -/

/-- Python's `label.lower()`: lowercase every character.  This is
`String.toLower` restated structurally on the character list so that it
evaluates by kernel reduction. -/
def strLower (s : String) : String := ⟨s.data.map Char.toLower⟩

/-- `any('green' in label for label in detected_lower)` for a tier keyword
`t`: is `t` a substring of some label of `L`, case-insensitively?
(app.py lines 143-148). -/
def tierVisible (t : String) (L : List String) : Bool :=
  (L.map strLower).any fun label => hasSubstr t label

/-- The sequential overwrite chain of app.py lines 150-158, as a function of
the four visibility flags. -/
def levelOfFlags (g y o r : Bool) : Nat :=
  let water_level : Nat := 0
  let water_level := if !g then 25 else water_level
  let water_level := if !y && !g then 50 else water_level
  let water_level := if !o && !y && !g then 75 else water_level
  let water_level := if !r && !o && !y && !g then 100 else water_level
  water_level

/-- `calculate_water_level` (app.py lines 141-160), verbatim: lower every
label, compute the four tier visibilities, then run the overwrite chain. -/
def calculate_water_level (detected_labels : List String) : Nat :=
  let detected_lower := detected_labels.map strLower
  let green_visible := detected_lower.any fun label => hasSubstr "green" label
  let yellow_visible := detected_lower.any fun label => hasSubstr "yellow" label
  let orange_visible := detected_lower.any fun label => hasSubstr "orange" label
  let red_visible := detected_lower.any fun label => hasSubstr "red" label
  let water_level : Nat := 0
  let water_level := if !green_visible then 25 else water_level
  let water_level := if !yellow_visible && !green_visible then 50 else water_level
  let water_level := if !orange_visible && !yellow_visible && !green_visible then 75 else water_level
  let water_level := if !red_visible && !orange_visible && !yellow_visible && !green_visible then 100 else water_level
  water_level

/-- `calculate_water_level` factors through the four visibility flags. -/
theorem calculate_water_level_eq_flags (L : List String) :
    calculate_water_level L =
      levelOfFlags (tierVisible "green" L) (tierVisible "yellow" L)
        (tierVisible "orange" L) (tierVisible "red" L) := rfl

/-- The tier keywords in the order app.py evaluates them (lines 145-148). -/
def tierOrder : List String := ["green", "yellow", "orange", "red"]

/-- Length of the longest prefix of the tier sequence all of whose keywords
are absent from `L` (closed form for the overwrite chain). -/
def absentRunLen (L : List String) : Nat :=
  (tierOrder.takeWhile fun t => !(tierVisible t L)).length

/-- **C1.** For every list of label strings `L`, `calculate_water_level L`
is one of 0, 25, 50, 75, 100; it is 100 exactly when none of the four tier
keywords (green, yellow, orange, red) occurs case-insensitively as a
substring of any label of `L`; in particular the empty list yields 100. -/
theorem c1_level_range_and_top (L : List String) :
    (calculate_water_level L = 0 ∨ calculate_water_level L = 25 ∨
      calculate_water_level L = 50 ∨ calculate_water_level L = 75 ∨
      calculate_water_level L = 100)
    ∧ (calculate_water_level L = 100 ↔
        tierVisible "green" L = false ∧ tierVisible "yellow" L = false ∧
        tierVisible "orange" L = false ∧ tierVisible "red" L = false)
    ∧ calculate_water_level ([] : List String) = 100 := by
  refine ⟨?_, ?_, by decide⟩ <;>
  · rw [calculate_water_level_eq_flags]
    cases tierVisible "green" L <;> cases tierVisible "yellow" L <;>
      cases tierVisible "orange" L <;> cases tierVisible "red" L <;> decide

/-- **C4.** For the input `["red_marker"]` (green, yellow, orange keywords
absent, red present), `calculate_water_level` returns 75: red's presence
does not suppress the 75 set by the lower absences, and the 100 branch does
not fire because it requires red's absence too. -/
theorem c4_red_marker_seventy_five :
    calculate_water_level ["red_marker"] = 75
    ∧ tierVisible "red" ["red_marker"] = true
    ∧ tierVisible "green" ["red_marker"] = false
    ∧ tierVisible "yellow" ["red_marker"] = false
    ∧ tierVisible "orange" ["red_marker"] = false := by decide

/-- `tierVisible` restated as a single `any` over the raw labels. -/
theorem tierVisible_eq_any (t : String) (L : List String) :
    tierVisible t L = L.any fun s => hasSubstr t (strLower s) := by
  simp only [tierVisible, List.any_map]
  rfl

/-- `tierVisible` only depends on which strings are members of the list. -/
theorem tierVisible_congr_mem (t : String) {L1 L2 : List String}
    (h : ∀ s, s ∈ L1 ↔ s ∈ L2) :
    tierVisible t L1 = tierVisible t L2 := by
  rw [tierVisible_eq_any, tierVisible_eq_any]
  have hiff : (L1.any fun s => hasSubstr t (strLower s)) = true ↔
      (L2.any fun s => hasSubstr t (strLower s)) = true := by
    simp only [List.any_eq_true]
    exact ⟨fun ⟨s, hs, hp⟩ => ⟨s, (h s).1 hs, hp⟩,
      fun ⟨s, hs, hp⟩ => ⟨s, (h s).2 hs, hp⟩⟩
  cases hb1 : L1.any fun s => hasSubstr t (strLower s) <;>
    cases hb2 : L2.any fun s => hasSubstr t (strLower s) <;>
    simp_all

/-- `tierVisible` only depends on the lowercased labels. -/
theorem tierVisible_congr_lower (t : String) {L1 L2 : List String}
    (h : L1.map strLower = L2.map strLower) :
    tierVisible t L1 = tierVisible t L2 := by
  unfold tierVisible
  rw [h]

/-- **C10.** `calculate_water_level L` equals the closed form
`25 * k` where `k` is the length of the longest prefix of the tier sequence
(green, yellow, orange, red) all of whose keywords are absent from `L`;
consequently the result is invariant under reordering and duplication of the
labels (it depends only on list membership) and under changes of letter case
(it depends only on the lowercased labels). -/
theorem c10_closed_form_and_invariance (L : List String) :
    calculate_water_level L = 25 * absentRunLen L
    ∧ ∀ L2 : List String,
        ((∀ s, s ∈ L ↔ s ∈ L2) →
          calculate_water_level L = calculate_water_level L2)
        ∧ (L.map strLower = L2.map strLower →
          calculate_water_level L = calculate_water_level L2) := by
  refine ⟨?_, fun L2 => ⟨fun h => ?_, fun h => ?_⟩⟩
  · rw [calculate_water_level_eq_flags]
    unfold absentRunLen tierOrder
    cases hg : tierVisible "green" L <;> cases hy : tierVisible "yellow" L <;>
      cases ho : tierVisible "orange" L <;> cases hr : tierVisible "red" L <;>
      simp [List.takeWhile, hg, hy, ho, hr, levelOfFlags]
  · rw [calculate_water_level_eq_flags, calculate_water_level_eq_flags,
      tierVisible_congr_mem "green" h, tierVisible_congr_mem "yellow" h,
      tierVisible_congr_mem "orange" h, tierVisible_congr_mem "red" h]
  · rw [calculate_water_level_eq_flags, calculate_water_level_eq_flags,
      tierVisible_congr_lower "green" h, tierVisible_congr_lower "yellow" h,
      tierVisible_congr_lower "orange" h, tierVisible_congr_lower "red" h]

/-- Witness for C10: the closed form at a concrete list, invariance under
duplication (`["green","green"]` vs `["green"]`), and invariance under case
changes (`["green","green"]` vs `["GREEN","GrEeN"]`). -/
theorem c10_closed_form_and_invariance_witness :
    calculate_water_level ["green", "green"] = 25 * absentRunLen ["green", "green"]
    ∧ calculate_water_level ["green", "green"] = calculate_water_level ["green"]
    ∧ calculate_water_level ["green", "green"] = calculate_water_level ["GREEN", "GrEeN"] :=
  ⟨(c10_closed_form_and_invariance ["green", "green"]).1,
    ((c10_closed_form_and_invariance ["green", "green"]).2 ["green"]).1
      (fun s => by simp [List.mem_cons]),
    ((c10_closed_form_and_invariance ["green", "green"]).2 ["GREEN", "GrEeN"]).2
      (by decide)⟩

/-- The claim of C3 as written fails: taking `L2 = ["green"]` and `L1 = []`
(green additionally absent, the other three tiers equally absent) gives
`calculate_water_level L1 = 100 > 0 = calculate_water_level L2`, refuting
`calculate_water_level L1 ≤ calculate_water_level L2`. -/
theorem c3_counterexample :
    tierVisible "yellow" ([] : List String) = tierVisible "yellow" ["green"]
    ∧ tierVisible "orange" ([] : List String) = tierVisible "orange" ["green"]
    ∧ tierVisible "red" ([] : List String) = tierVisible "red" ["green"]
    ∧ tierVisible "green" ([] : List String) = false
    ∧ ¬ calculate_water_level ([] : List String) ≤ calculate_water_level ["green"] := by
  decide

/-- **C3 (amended).** If `L1` agrees with `L2` on the visibility of the
yellow, orange and red tiers while the green tier is absent from `L1`
(so green is, at most, additionally absent from `L1`), then
`calculate_water_level L2 ≤ calculate_water_level L1`: removing the green
tier can only raise the level. -/
theorem c3_amended_green_absence_raises (L1 L2 : List String)
    (hy : tierVisible "yellow" L1 = tierVisible "yellow" L2)
    (ho : tierVisible "orange" L1 = tierVisible "orange" L2)
    (hr : tierVisible "red" L1 = tierVisible "red" L2)
    (hg : tierVisible "green" L1 = false) :
    calculate_water_level L2 ≤ calculate_water_level L1 := by
  rw [calculate_water_level_eq_flags, calculate_water_level_eq_flags,
    hg, ← hy, ← ho, ← hr]
  cases tierVisible "green" L2 <;> cases tierVisible "yellow" L1 <;>
    cases tierVisible "orange" L1 <;> cases tierVisible "red" L1 <;> decide

/-- Witness for the amended C3 at `L1 = []`, `L2 = ["green"]`. -/
theorem c3_amended_green_absence_raises_witness :
    calculate_water_level ["green"] ≤ calculate_water_level ([] : List String) :=
  c3_amended_green_absence_raises [] ["green"]
    (by decide) (by decide) (by decide) (by decide)

/-!  ## Detection data model (the service's JSON response, app.py §6) -/

/-- One polygon point of a prediction (`{x, y}` in the JSON). -/
structure Point where
  x : ℚ
  y : ℚ
deriving DecidableEq

/-- One prediction of the detection response: `class`, `confidence`, box
center/size, and the optional `points` polygon (app.py lines 98-107,
226-279).  Python floats are modelled as rationals. -/
structure Prediction where
  cls : String
  confidence : ℚ
  x : ℚ
  y : ℚ
  width : ℚ
  height : ℚ
  points : Option (List Point)
deriving DecidableEq

/-- The parsed response body: the `predictions` key may be absent
(`data.get('predictions', [])` and `'predictions' not in results` both
handle that case). -/
structure DetectionResult where
  predictions : Option (List Prediction)
deriving DecidableEq

/-!  ## Inference worker (app.py lines 49-116) -/

/-- Scale factor computed before dispatch (app.py lines 69-72): `1.0`,
overwritten with `640 / width` when the width exceeds 640.  The height is
not consulted. -/
def computeScale (width : Nat) : ℚ :=
  if 640 < width then (640 : ℚ) / width else 1

/-- Did the worker produce a downscaled copy (the `cv2.resize` inside the
`if width > 640` branch, app.py line 73)? -/
def resizeHappens (width : Nat) : Bool :=
  decide (640 < width)

/-- The frame dimensions after the optional downscale (app.py line 73,
`fx = fy = scale`, kept exact in ℚ). -/
def processedDims (width height : Nat) : ℚ × ℚ :=
  if 640 < width then
    ((width : ℚ) * computeScale width, (height : ℚ) * computeScale width)
  else ((width : ℚ), (height : ℚ))

/-- Rescaling of one polygon point (app.py lines 105-107). -/
def rescalePoint (scale : ℚ) (q : Point) : Point :=
  ⟨q.x / scale, q.y / scale⟩

/-- Rescaling of one prediction (app.py lines 98-107): every spatial field
is divided by the scale factor; `class` and `confidence` are untouched. -/
def rescalePred (scale : ℚ) (p : Prediction) : Prediction :=
  { p with
    x := p.x / scale
    y := p.y / scale
    width := p.width / scale
    height := p.height / scale
    points := p.points.map (List.map (rescalePoint scale)) }

/-- The correction applied to a successful response body before commit
(app.py lines 96-107): the rescaling loop runs only when `scale != 1.0`. -/
def processData (scale : ℚ) (data : DetectionResult) : DetectionResult :=
  if scale = 1 then data
  else { predictions := data.predictions.map (List.map (rescalePred scale)) }

/-- Modelled from the spec: the detection service (an external collaborator,
not part of `src/`) reports geometry "in the coordinate space of the
*submitted* — possibly downscaled — image", i.e. every spatial field of the
original-frame prediction multiplied by the scale factor. -/
def serviceSpacePred (scale : ℚ) (p : Prediction) : Prediction :=
  { p with
    x := p.x * scale
    y := p.y * scale
    width := p.width * scale
    height := p.height * scale
    points := p.points.map (List.map fun q => ⟨q.x * scale, q.y * scale⟩) }

/-- Rescaling by 1 changes nothing (division by one). -/
theorem rescalePoint_one (q : Point) : rescalePoint 1 q = q := by
  cases q
  simp [rescalePoint]

/-- `rescalePoint 1` is the identity function. -/
theorem rescalePoint_one_fun : rescalePoint 1 = id :=
  funext rescalePoint_one

/-- Rescaling a prediction by 1 changes nothing. -/
theorem rescalePred_one (p : Prediction) : rescalePred 1 p = p := by
  cases p with
  | mk cls conf x y w h pts =>
    cases pts with
    | none => simp [rescalePred]
    | some ps => simp [rescalePred, rescalePoint_one_fun]

/-- `rescalePred 1` is the identity function. -/
theorem rescalePred_one_fun : rescalePred 1 = id :=
  funext rescalePred_one

/-- Dividing back out a nonzero scale recovers the original point. -/
theorem rescalePoint_serviceSpace (scale : ℚ) (hs : scale ≠ 0) (q : Point) :
    rescalePoint scale ⟨q.x * scale, q.y * scale⟩ = q := by
  cases q
  simp [rescalePoint, mul_div_assoc, div_self hs]

/-- Dividing back out a nonzero scale recovers the original prediction. -/
theorem rescalePred_serviceSpace (scale : ℚ) (hs : scale ≠ 0) (p : Prediction) :
    rescalePred scale (serviceSpacePred scale p) = p := by
  cases p with
  | mk cls conf x y w h pts =>
    cases pts with
    | none => simp [rescalePred, serviceSpacePred, mul_div_assoc, div_self hs]
    | some ps =>
      have hcomp : (rescalePoint scale ∘ fun q : Point => ⟨q.x * scale, q.y * scale⟩) = id := by
        funext q
        exact rescalePoint_serviceSpace scale hs q
      simp [rescalePred, serviceSpacePred, mul_div_assoc, div_self hs,
        List.map_map, hcomp]

/-- **C5.** For every successful response for a frame downscaled by `scale`,
every spatial field of every returned prediction (box x, y, width, height,
and both coordinates of every polygon point) is divided by that same scale
factor before commit — also when `scale = 1`, where the skipped loop agrees
with dividing by one — and consequently, for any nonzero scale, a prediction
the service expressed in the submitted image's coordinate space is restored
exactly to the original frame's coordinate space. -/
theorem c5_geometry_rescaled (scale : ℚ) (hs : scale ≠ 0) (data : DetectionResult) :
    processData scale data =
      { predictions := data.predictions.map (List.map (rescalePred scale)) }
    ∧ ∀ p : Prediction, rescalePred scale (serviceSpacePred scale p) = p := by
  constructor
  · by_cases h1 : scale = 1
    · subst h1
      cases data with
      | mk preds => simp [processData, rescalePred_one_fun]
    · simp [processData, h1]
  · exact rescalePred_serviceSpace scale hs

/-- Witness for C5 at `scale = 1/2` and a one-prediction response with one
polygon point. -/
theorem c5_geometry_rescaled_witness :
    processData (1 / 2) ⟨some [⟨"green", 9 / 10, 3, 4, 10, 20, some [⟨1, 2⟩]⟩]⟩ =
      ⟨some [⟨"green", 9 / 10, 6, 8, 20, 40, some [⟨2, 4⟩]⟩]⟩
    ∧ rescalePred (1 / 2)
        (serviceSpacePred (1 / 2) ⟨"green", 9 / 10, 3, 4, 10, 20, some [⟨1, 2⟩]⟩) =
      ⟨"green", 9 / 10, 3, 4, 10, 20, some [⟨1, 2⟩]⟩ := by
  constructor
  · rw [(c5_geometry_rescaled (1 / 2) (by norm_num)
      ⟨some [⟨"green", 9 / 10, 3, 4, 10, 20, some [⟨1, 2⟩]⟩]⟩).1]
    simp [rescalePred, rescalePoint]
    norm_num
  · exact (c5_geometry_rescaled (1 / 2) (by norm_num)
      ⟨some [⟨"green", 9 / 10, 3, 4, 10, 20, some [⟨1, 2⟩]⟩]⟩).2 _

/-- The claim of C7 as written fails: a 480-wide, 800-high frame is already
"within bound" for the code (`width > 640` is false), so `scale = 1`, no
downscaled copy is produced, and the frame's longer dimension (its height,
800) still exceeds the fixed maximum 640. -/
theorem c7_counterexample :
    computeScale 480 = 1
    ∧ resizeHappens 480 = false
    ∧ ¬ max (processedDims 480 800).1 (processedDims 480 800).2 ≤ 640 := by
  refine ⟨by norm_num [computeScale], by decide, ?_⟩
  norm_num [processedDims, computeScale]

/-- **C7 (amended).** Before dispatching a frame, the worker computes a scale
factor such that the frame's *width* (not its longer dimension) does not
exceed the fixed maximum 640: the scale is 1 when the width is already
within the bound, and otherwise it is less than 1 and brings the width to
exactly 640; both dimensions are multiplied by the same factor (aspect ratio
preserved), and a downscaled copy is produced exactly when the scale is
less than 1. -/
theorem c7_amended_width_bounded (w h : Nat) :
    (w ≤ 640 → computeScale w = 1 ∧ processedDims w h = ((w : ℚ), (h : ℚ)))
    ∧ (640 < w → computeScale w < 1 ∧ (w : ℚ) * computeScale w = 640)
    ∧ processedDims w h = ((w : ℚ) * computeScale w, (h : ℚ) * computeScale w)
    ∧ (resizeHappens w = true ↔ computeScale w < 1) := by
  have hsplit : w ≤ 640 ∨ 640 < w := le_or_lt w 640
  refine ⟨fun hw => ?_, fun hw => ?_, ?_, ?_⟩
  · have hnot : ¬ 640 < w := not_lt.mpr hw
    simp [computeScale, processedDims, hnot]
  · have hwq : (640 : ℚ) < (w : ℚ) := by exact_mod_cast hw
    have hw0 : (0 : ℚ) < (w : ℚ) := by positivity
    constructor
    · simp only [computeScale, if_pos hw]
      rw [div_lt_one hw0]
      exact hwq
    · simp only [computeScale, if_pos hw]
      field_simp
  · rcases hsplit with hw | hw
    · have hnot : ¬ 640 < w := not_lt.mpr hw
      simp [computeScale, processedDims, hnot]
    · simp [processedDims, hw]
  · rcases hsplit with hw | hw
    · have hnot : ¬ 640 < w := not_lt.mpr hw
      simp [resizeHappens, computeScale, hnot]
    · have hwq : (640 : ℚ) < (w : ℚ) := by exact_mod_cast hw
      have hw0 : (0 : ℚ) < (w : ℚ) := by positivity
      simp only [resizeHappens, computeScale, if_pos hw, decide_eq_true_eq]
      rw [div_lt_one hw0]
      simp [hw, hwq]

/-- Witness for the amended C7: a 1000-wide frame is scaled below 1 down to
width 640, a 480-wide frame is left at scale 1. -/
theorem c7_amended_width_bounded_witness :
    computeScale 1000 < 1 ∧ (1000 : ℚ) * computeScale 1000 = 640
    ∧ computeScale 480 = 1 :=
  ⟨((c7_amended_width_bounded 1000 100).2.1 (by norm_num)).1,
    ((c7_amended_width_bounded 1000 100).2.1 (by norm_num)).2,
    ((c7_amended_width_bounded 480 100).1 (by norm_num)).1⟩

/-!  ## One round of the inference worker's HTTP call (app.py lines 85-116) -/

/-- Outcome of `requests.post` plus response parsing, as seen by one loop
round: a response with its status code and (when the body parses as the
expected JSON) the parsed body, or a raised exception (network error —
`response.json()` failure on a 200 response is also a raised exception and
is folded into the same `except` branch by the code). -/
inductive HttpResult where
  | response (status : Nat) (body : Option DetectionResult)
  | netError
deriving DecidableEq

/-- One round of `inference_worker` (app.py lines 85-116) acting on the
result slot: given the currently committed `latest_results`, the scale used
for this frame and the HTTP outcome, return the new slot contents and the
number of seconds slept in backoff (`time.sleep(1)` runs only in the
`except` branch; the non-200 branch is `pass`). -/
def inference_worker_round (slot : Option DetectionResult) (scale : ℚ)
    (r : HttpResult) : Option DetectionResult × Nat :=
  match r with
  | .netError => (slot, 1)
  | .response status body =>
    if status = 200 then
      match body with
      | none => (slot, 1)
      | some data => (some (processData scale data), 0)
    else (slot, 0)

/-- The claim of C6 as written fails: on a non-success HTTP status (here
500) the attempt is discarded and the slot is preserved, but the worker
sleeps 0 seconds — `pass` — rather than waiting the fixed backoff interval
before retrying. -/
theorem c6_counterexample :
    inference_worker_round (some ⟨some []⟩) 1 (.response 500 none) =
      (some ⟨some []⟩, 0) := rfl

/-- **C6 (amended).** On every failed inference round the attempt is
discarded and the previously committed result remains in the slot unchanged
— the slot is never cleared on a failed round; the fixed 1-second backoff is
taken only on the failures that raise an exception (network error, or a
malformed body on a success status), while a non-success HTTP status retries
immediately with no backoff. -/
theorem c6_amended_slot_preserved (slot : Option DetectionResult) (scale : ℚ)
    (status : Nat) (body : Option DetectionResult) (hstatus : status ≠ 200) :
    inference_worker_round slot scale (.response status body) = (slot, 0)
    ∧ inference_worker_round slot scale .netError = (slot, 1)
    ∧ inference_worker_round slot scale (.response 200 none) = (slot, 1) := by
  refine ⟨?_, rfl, rfl⟩
  simp [inference_worker_round, hstatus]

/-- Witness for the amended C6 at a concrete slot and a 404 response. -/
theorem c6_amended_slot_preserved_witness :
    inference_worker_round (some ⟨some []⟩) 1 (.response 404 (some ⟨none⟩)) =
      (some ⟨some []⟩, 0)
    ∧ inference_worker_round (some ⟨some []⟩) 1 .netError = (some ⟨some []⟩, 1)
    ∧ inference_worker_round (some ⟨some []⟩) 1 (.response 200 none) =
      (some ⟨some []⟩, 1) :=
  c6_amended_slot_preserved (some ⟨some []⟩) 1 404 (some ⟨none⟩) (by norm_num)

/-!  ## Severity state and the render tick (app.py lines 26-31, 445-461) -/

/-- The module-level severity state read by the API endpoints:
`current_water_level` and `detected_labels_list` (app.py lines 30-31). -/
structure ApiState where
  current_water_level : Nat
  detected_labels_list : List String
deriving DecidableEq

/-- The initial values of lines 30-31: `current_water_level = 0`,
`detected_labels_list = []`. -/
def initialApiState : ApiState := ⟨0, []⟩

/-- The state effect of `draw_predictions_no_overlay` (app.py lines
214-288): with no results or no `predictions` key it stores
`calculate_water_level([])` and an empty label list; otherwise it stores the
level computed from the predictions' `class` labels, and those labels. -/
def draw_predictions_no_overlay_state (results : Option DetectionResult) : ApiState :=
  match results with
  | none => ⟨calculate_water_level [], []⟩
  | some r =>
    match r.predictions with
    | none => ⟨calculate_water_level [], []⟩
    | some preds =>
      ⟨calculate_water_level (preds.map fun p => p.cls), preds.map fun p => p.cls⟩

/-- The severity-state effect of one pass of the capture loop's render
section (app.py lines 445-461): `draw_predictions_no_overlay` (and likewise
`draw_predictions`) runs only under `if results:`, so when `latest_results`
is `None` the shared severity state is left untouched — only the local
display indicator is drawn from an empty label list. -/
def render_tick (st : ApiState) (latest_results : Option DetectionResult) : ApiState :=
  match latest_results with
  | none => st
  | some r => draw_predictions_no_overlay_state (some r)

/-- The body of `GET /api/status` (app.py lines 371-379), without the
wall-clock timestamp. -/
structure StatusResponse where
  water_level : Nat
  detected_labels : List String
  connected : Bool
deriving DecidableEq

/-- `get_status` (app.py lines 371-379): report the current severity state;
`connected` is whether `latest_frame` is not `None`. -/
def get_status (st : ApiState) (connected : Bool) : StatusResponse :=
  ⟨st.current_water_level, st.detected_labels_list, connected⟩

/-- The claim of C2 as written fails: starting from the initial state and
rendering with `latest_results = None` (detection has never succeeded),
`GET /api/status` reports the initial water level 0, not 100 — the
annotation step that would store `calculate_water_level([]) = 100` is
guarded by `if results:` and is never invoked. -/
theorem c2_counterexample :
    (get_status (render_tick initialApiState none) true).water_level = 0
    ∧ (get_status (render_tick initialApiState none) true).water_level ≠ 100 := by
  decide

/-- **C2 (amended).** `calculate_water_level([]) = 100`, and the display
path does draw its indicator from an empty label list when no result
exists; but the shared severity state is updated only under `if results:`,
so as long as no `DetectionResult` is available (detection has never
succeeded), any number of render passes leaves the state at its initial
value and `GET /api/status` reports water level 0, not 100. -/
theorem c2_amended_status_stays_initial (n : Nat) (c : Bool) :
    calculate_water_level [] = 100
    ∧ (get_status ((fun st => render_tick st none)^[n] initialApiState) c).water_level = 0 := by
  refine ⟨by decide, ?_⟩
  rw [Function.iterate_fixed rfl n]
  rfl

/-!  ## The capture loop's reconnect discipline (app.py lines 431-439) -/

/-- Outcome of `cap.read()`: a frame, or `ret == False` (connection lost). -/
inductive ReadOutcome where
  | gotFrame
  | lost
deriving DecidableEq

/-- The inputs one iteration of the capture loop reacts to: the stop flag
sampled at the loop head, the read outcome, and whether `q` was pressed in
the display window. -/
structure CapEvent where
  stop : Bool
  outcome : ReadOutcome
  quitKey : Bool
deriving DecidableEq

/-- Observable state of the capture loop: whether it is still looping, how
often it released and reopened the source handle, and the total backoff
seconds slept. -/
structure CapState where
  running : Bool
  releases : Nat
  reopens : Nat
  sleptSeconds : Nat
deriving DecidableEq

/-- One iteration of `video_capture_loop`'s while loop (app.py lines
431-479): stop flag checked at the head; on a failed read the handle is
released, the loop sleeps 2 seconds, reopens the source and continues; on a
successful read the frame is processed and `q` may break the loop. -/
def captureStep (st : CapState) (e : CapEvent) : CapState :=
  if st.running then
    if e.stop then { st with running := false }
    else
      match e.outcome with
      | .lost =>
        { st with
          releases := st.releases + 1
          reopens := st.reopens + 1
          sleptSeconds := st.sleptSeconds + 2 }
      | .gotFrame => if e.quitKey then { st with running := false } else st
  else st

/-- Running the capture loop over a finite trace of events. -/
def video_capture_loop_run (st : CapState) (evs : List CapEvent) : CapState :=
  evs.foldl captureStep st

/-- **C8.** Whenever a read signals connection loss, the capture loop
releases the handle, sleeps the fixed 2-second backoff, reattempts open,
and keeps looping: over any trace of lost reads with the stop signal unset,
the loop is still running afterwards — it never exits solely because the
source dropped — having released and reopened once, and slept 2 seconds,
per lost read. -/
theorem c8_reconnect_until_stopped (st : CapState) (evs : List CapEvent)
    (hrun : st.running = true)
    (hlost : ∀ e ∈ evs, e.stop = false ∧ e.outcome = ReadOutcome.lost) :
    video_capture_loop_run st evs =
      { running := true
        releases := st.releases + evs.length
        reopens := st.reopens + evs.length
        sleptSeconds := st.sleptSeconds + 2 * evs.length } := by
  induction evs generalizing st with
  | nil =>
    cases st
    simp_all [video_capture_loop_run]
  | cons e rest ih =>
    obtain ⟨hs, ho⟩ := hlost e (List.mem_cons_self e rest)
    have hstep : captureStep st e =
        { st with
          releases := st.releases + 1
          reopens := st.reopens + 1
          sleptSeconds := st.sleptSeconds + 2 } := by
      simp [captureStep, hrun, hs, ho]
    have htail : video_capture_loop_run st (e :: rest) =
        video_capture_loop_run (captureStep st e) rest := rfl
    rw [htail, ih (captureStep st e) (by rw [hstep]; exact hrun)
      (fun e' he' => hlost e' (List.mem_cons_of_mem e he'))]
    rw [hstep]
    simp [List.length_cons]
    constructor
    · omega
    constructor
    · omega
    · ring

/-- Witness for C8: two consecutive lost reads with the stop signal unset
leave the loop running, with two release/reopen cycles and 4 seconds of
backoff. -/
theorem c8_reconnect_until_stopped_witness :
    video_capture_loop_run ⟨true, 0, 0, 0⟩
      [⟨false, ReadOutcome.lost, false⟩, ⟨false, ReadOutcome.lost, false⟩] =
      ⟨true, 2, 2, 4⟩ := by
  have h := c8_reconnect_until_stopped ⟨true, 0, 0, 0⟩
    [⟨false, ReadOutcome.lost, false⟩, ⟨false, ReadOutcome.lost, false⟩]
    rfl (by decide)
  simpa using h

/-!  ## GET /api/snapshot (app.py lines 381-391) -/

/-- A raw pixel buffer; its contents do not influence the control flow. -/
structure Frame where
  pixels : List Nat
deriving DecidableEq

/-- Body of an HTTP response: plain text, or JPEG bytes. -/
inductive ResponseBody where
  | text (s : String)
  | jpeg (bytes : List Nat)
deriving DecidableEq

/-- An HTTP response: status code plus body (FastAPI's `Response`; the
default status is 200). -/
structure HttpResponse where
  status : Nat
  body : ResponseBody
deriving DecidableEq

/-- `get_snapshot` (app.py lines 381-391): under the processed-frame lock,
answer 503 with a plain-text body when `latest_processed_frame` is `None`,
otherwise the JPEG encoding of the stored frame.  `encodeJpeg` abstracts
`cv2.imencode` (an external library capability); the function is total, so
it answers immediately from the current slot and never waits for a frame. -/
def get_snapshot (encodeJpeg : Frame → List Nat)
    (latest_processed_frame : Option Frame) : HttpResponse :=
  match latest_processed_frame with
  | none => ⟨503, ResponseBody.text "No frame available"⟩
  | some f => ⟨200, ResponseBody.jpeg (encodeJpeg f)⟩

/-- **C9.** `GET /api/snapshot` returns the JPEG-encoded bytes of the
latest annotated frame (status 200) when one exists, and returns status 503
with a plain-text body when no annotated frame has ever been produced; as a
total function of the current slot it never blocks waiting for a frame. -/
theorem c9_snapshot_jpeg_or_503 (enc : Frame → List Nat) (slot : Option Frame) :
    (slot = none →
      get_snapshot enc slot = ⟨503, ResponseBody.text "No frame available"⟩)
    ∧ ∀ f, slot = some f →
      get_snapshot enc slot = ⟨200, ResponseBody.jpeg (enc f)⟩ := by
  constructor
  · rintro rfl
    rfl
  · rintro f rfl
    rfl

/-- Witness for C9 with a one-pixel frame and the trivial encoder. -/
theorem c9_snapshot_jpeg_or_503_witness :
    get_snapshot (fun f => f.pixels) none =
      ⟨503, ResponseBody.text "No frame available"⟩
    ∧ get_snapshot (fun f => f.pixels) (some ⟨[7]⟩) =
      ⟨200, ResponseBody.jpeg [7]⟩ :=
  ⟨(c9_snapshot_jpeg_or_503 (fun f => f.pixels) none).1 rfl,
    (c9_snapshot_jpeg_or_503 (fun f => f.pixels) (some ⟨[7]⟩)).2 ⟨[7]⟩ rfl⟩
